import Mathlib

/-!
Verification development for `ia_search.py`: a shallow embedding of the
interactive navigation state machine, pagination, and download-orchestration
logic of the script, together with theorems settling the specification claims.

Each definition is translated from the Python source; comments cite the
source lines it embeds.
-/

namespace IASearch

/-! ## String helpers (Python semantics) -/

/-- Prefix test on character lists: `subAt hay needle` is true when `needle`
is an initial segment of `hay`. Used to model Python substring and
`startswith`/`endswith` tests. -/
def subAt : List Char → List Char → Bool
  | _, [] => true
  | [], _ :: _ => false
  | a :: as, b :: bs => a == b && subAt as bs

/-- Substring test on character lists: models the Python `in` operator
(`needle in hay`); the empty needle is contained in every string. -/
def hasSub (hay needle : List Char) : Bool :=
  match hay with
  | [] => needle.isEmpty
  | _ :: t => subAt hay needle || hasSub t needle

/-- Python `needle in hay` for strings. -/
def strIn (needle hay : String) : Bool := hasSub hay.toList needle.toList

/-- Python `s.startswith(pre)`. -/
def strStarts (s pre : String) : Bool := subAt s.toList pre.toList

/-- Python `s.endswith(suf)`. -/
def strEnds (s suf : String) : Bool := subAt s.toList.reverse suf.toList.reverse

/-- Python `s.strip()`: drop leading and trailing whitespace (ASCII
whitespace; the claims only exercise ASCII input). -/
def pyStrip (s : String) : String :=
  String.mk (((s.toList.dropWhile Char.isWhitespace).reverse.dropWhile Char.isWhitespace).reverse)

/-- Python `s.lower()` (ASCII lowering; the claims only exercise ASCII). -/
def strLower (s : String) : String := String.mk (s.toList.map Char.toLower)

/-- String `drop` over the character list. -/
def strDrop (s : String) (n : Nat) : String := String.mk (s.toList.drop n)

/-- Python `s.lstrip("/")`: drop all leading slash characters. -/
def lstripSlash (s : String) : String := String.mk (s.toList.dropWhile (· == '/'))

/-- Python `s.lstrip(".")`: drop all leading dot characters. -/
def lstripDot (s : String) : String := String.mk (s.toList.dropWhile (· == '.'))

/-- Decimal digit value of a character, if it is a digit. -/
def digitVal (c : Char) : Option Nat :=
  if c.isDigit then some (c.toNat - 48) else none

/-- Accumulating decimal parser over a character list; fails on any
non-digit character. -/
def digitsToNatAux : List Char → Nat → Option Nat
  | [], acc => some acc
  | c :: cs, acc =>
    match digitVal c with
    | none => none
    | some d => digitsToNatAux cs (acc * 10 + d)

/-- Parse a non-empty list of decimal digits; the empty list fails. -/
def digitsToNat (cs : List Char) : Option Nat :=
  match cs with
  | [] => none
  | _ => digitsToNatAux cs 0

/-- Python `int(s)` on an already-stripped string: optional sign followed by
decimal digits; anything else raises `ValueError`, modelled as `none`.
(Underscore separators and non-ASCII digits accepted by CPython are not
modelled; the claims only exercise plain decimal input.) -/
def pyParseInt (s : String) : Option Int :=
  match s.toList with
  | '-' :: rest => (digitsToNat rest).map (fun n => -(n : Int))
  | '+' :: rest => (digitsToNat rest).map (fun n => (n : Int))
  | cs => (digitsToNat cs).map (fun n => (n : Int))

/-! ## ANSI colors (class `Color`, ia_search.py lines 44-56) -/

namespace Color

def RESET : String := "\x1b[0m"
def BOLD : String := "\x1b[1m"
def DIM : String := "\x1b[2m"
/-- Source line 48 keeps the stray closing bracket of the original. -/
def CYAN : String := "\x1b[36m]"
def GREEN : String := "\x1b[32m"
def YELLOW : String := "\x1b[33m"
def BLUE : String := "\x1b[34m"
def MAGENTA : String := "\x1b[35m"

end Color

/-- `color(text, code)` (line 55): wrap text in an ANSI code and a reset. -/
def colorWrap (text code : String) : String := code ++ text ++ Color.RESET

/-! ## Result records and the Results-state loop -/

/-- A search result record (`@dataclass Item`, lines 159-163, plus the `date`
attribute attached in `parse_items`, line 311). -/
structure Item where
  identifier : String
  downloads : Option Int := none
  title : Option String := none
  date : Option String := none
deriving DecidableEq, Repr

/-- Results filter predicate (lines 946-947): case-insensitive substring
match of the filter term against `identifier + " " + title`. -/
def itemMatchesFilter (lf : String) (it : Item) : Bool :=
  strIn lf (strLower it.identifier ++ " " ++ strLower (it.title.getD ""))

/-- Apply the runtime results filter to a freshly parsed item list
(lines 944-949 and 1032-1037): `results_filter` is either `None` or a
non-empty term, so Python truthiness coincides with the `Option` match. -/
def applyResultsFilter : Option String → List Item → List Item
  | none, base => base
  | some t, base => base.filter (itemMatchesFilter (strLower t))

/-- Mutable state of the Results-level loop in `main`: the requested page
(`args.page`), the runtime results filter, the item list parsed from the
last successfully fetched payload (`parse_items(payload)`), and the
currently displayed (filtered) item list. -/
structure RState where
  page : Nat
  resultsFilter : Option String := none
  payloadItems : List Item := []
  items : List Item := []
deriving DecidableEq, Repr

/-- The value of the Python `sel` variable after the Results-prompt
classification (lines 919-934): `None`, a string (a command letter kept in
its ORIGINAL case, or the literal `"/"`), or a 0-based integer index. -/
inductive PySel where
  | noneV
  | strV (s : String)
  | intV (i : Nat)
deriving DecidableEq, Repr

/-- Result of one Results-prompt interaction (lines 909-1017): the loop
either terminates the session (`break` / `q`, after which `main` falls off
the loop and the process exits), continues without any catalog fetch,
proceeds into one of the fetching branches / the numeric-selection branch,
or crashes with an uncaught exception propagating out of `main`. -/
inductive ROut where
  | ended (code : Int) (msgs : List String)
  | again (st : RState) (msgs : List String)
  | doSearch (newQuery : String) (st : RState)
  | doReset (st : RState)
  | doNext
  | doPrev
  | doSelect (i : Nat)
  | raised (err : String)
deriving DecidableEq, Repr

/-- One Results-prompt classification-and-dispatch step (lines 909-1017).
`raw0` is the line read at the prompt (`input(...)`; EOF is modelled as the
empty string, which the code maps to `sel = None`), `aux` is the line read
at a possible secondary prompt (filter text for a bare `/`, or the new query
for `s`).

Classification (lines 919-934): blank input yields `sel = None`; when
`raw.lower()` is one of the command letters the code sets `sel = raw`,
keeping the ORIGINAL case; `/...` sets `sel = "/"`; a numeric input in
range becomes a 0-based index, out of range yields `sel = None` silently;
anything else prints `Invalid input.` and yields `sel = None`.

Dispatch (lines 935-1069), in source order, compares `sel` against the
lowercase literals only: `"/"` updates the client-side filter from the
stored payload without fetching; `s`, `r` proceed to their fetching
branches; `q` breaks; `sel = None` prints the table and breaks, ending the
session; `n`, `p` proceed to the paging fetches; an integer reaches
`chosen = items[sel]`. An uppercase command letter (`Q`, `N`, `P`, `R`,
`S`) matches no dispatch branch and also reaches `items[sel]` — indexing a
list with a `str`, which raises an uncaught `TypeError` that crashes the
session. -/
def resultsPromptStep (st : RState) (raw0 aux : String) : ROut :=
  let raw := pyStrip raw0
  let cls : PySel × List String :=
    if raw = "" then (.noneV, [])
    else if strLower raw = "q" ∨ strLower raw = "n" ∨ strLower raw = "p"
        ∨ strLower raw = "r" ∨ strLower raw = "s" then (.strV raw, [])
    else if strStarts raw "/" then (.strV "/", [])
    else
      match pyParseInt raw with
      | none => (.noneV, ["Invalid input."])
      | some k =>
          if 1 ≤ k ∧ k ≤ (st.items.length : Int) then (.intV (k - 1).toNat, [])
          else (.noneV, [])
  let sel := cls.1
  let msgs := cls.2
  if sel = .strV "/" then
    let term := if raw.length > 1 then strDrop raw 1 else pyStrip aux
    let rf := if term = "" then none else some term
    .again { st with resultsFilter := rf,
                     items := applyResultsFilter rf st.payloadItems } msgs
  else if sel = .strV "s" then
    let newq := pyStrip aux
    if newq = "" then .again st msgs
    else .doSearch newq { st with page := 1, resultsFilter := none }
  else if sel = .strV "r" then .doReset { st with resultsFilter := none, page := 1 }
  else if sel = .strV "q" then .ended 0 msgs
  else if sel = .noneV then .ended 0 msgs
  else if sel = .strV "n" then .doNext
  else if sel = .strV "p" then .doPrev
  else
    match sel with
    | .intV i => .doSelect i
    | .strV _ => .raised "TypeError: list indices must be integers or slices, not str"
    | .noneV => .ended 0 msgs

/-- Result of a Results-level paging step: the new loop state, the error or
status lines printed, and whether a catalog fetch was performed. -/
structure RFetchOut where
  st : RState
  msgs : List String
  fetched : Bool
deriving DecidableEq, Repr

/-- The `n` branch of the Results loop (lines 1018-1042): `args.page` is
incremented first, then the catalog is fetched for the new page. On success
the payload and the (re-filtered) item list are replaced; on failure an
error is printed and the loop continues — the item data is retained but the
page number keeps its incremented value. `fetch` maps a page number to the
parsed item list of the catalog response for that page, or to the raised
error. -/
def resultsNextStep (st : RState) (fetch : Nat → Except String (List Item)) : RFetchOut :=
  let newPage := st.page + 1
  match fetch newPage with
  | .error e =>
      { st := { st with page := newPage },
        msgs := ["Failed to load next page: " ++ e], fetched := true }
  | .ok base =>
      { st := { st with page := newPage, payloadItems := base,
                        items := applyResultsFilter st.resultsFilter base },
        msgs := [], fetched := true }

/-- The `p` branch of the Results loop (lines 1043-1068): `args.page` is
decremented first (only when it exceeds 1), then the catalog is fetched for
the resulting page — also when the page was already 1, in which case page 1
is re-fetched and the displayed data replaced. Failure behaves as in
`resultsNextStep`. -/
def resultsPrevStep (st : RState) (fetch : Nat → Except String (List Item)) : RFetchOut :=
  let newPage := if st.page > 1 then st.page - 1 else st.page
  match fetch newPage with
  | .error e =>
      { st := { st with page := newPage },
        msgs := ["Failed to load previous page: " ++ e], fetched := true }
  | .ok base =>
      { st := { st with page := newPage, payloadItems := base,
                        items := applyResultsFilter st.resultsFilter base },
        msgs := [], fetched := true }

/-! ## Item details, file records, and `build_file_info` -/

/-- A metadata field value: the archive.org details payload stores metadata
values either as a string or as a list of strings (`_first`, lines 561-567,
normalizes both shapes). -/
inductive MetaVal where
  | strv (s : String)
  | listv (l : List String)
deriving DecidableEq, Repr

/-- `_first(meta, key)` (lines 561-567): a string value is returned as-is, a
list yields its head (or `None` when empty), anything else yields `None`
(modelled as an absent value). -/
def _first : Option MetaVal → Option String
  | some (.strv s) => some s
  | some (.listv l) => l.head?
  | none => none

/-- One raw file entry of the details payload, with the keys the script
reads (`f.get(...)` in `build_file_info` and the files table). Every key may
be absent; `size` is kept as the raw payload string. -/
structure FileRec where
  name : Option String := none
  size : Option String := none
  md5 : Option String := none
  sha1 : Option String := none
  format : Option String := none
  mtime : Option String := none
  crc32 : Option String := none
deriving DecidableEq, Repr

/-- `f.get("name", "")`: the name with the empty-string default. -/
def FileRec.nameD (f : FileRec) : String := f.name.getD ""

/-- The `files` value of a details payload: the API returns either a dict
keyed by path or a list (normalized at lines 1082-1089 and 591-595). -/
inductive FilesObj where
  | asDict (entries : List (String × FileRec))
  | asList (files : List FileRec)
deriving DecidableEq, Repr

/-- Normalization of the dict-or-list file listing (lines 1082-1089):
a dict entry becomes `{"name": key.lstrip("/"), **value}`, where a `name`
key present in the value wins over the derived one (Python dict-merge
semantics of `{"name": ..., **(v or {})}`). -/
def normalizeFiles : FilesObj → List FileRec
  | .asDict es => es.map (fun kv => { kv.2 with name := some (kv.2.name.getD (lstripSlash kv.1)) })
  | .asList fs => fs

/-- The parts of a details payload the interactive loop reads: the top-level
`server` and `dir` keys (used by `build_file_url`), the
`metadata.identifier` value (read through `_first`), and the file listing. -/
structure Details where
  server : Option String := none
  dir : Option String := none
  identifierMeta : Option MetaVal := none
  files : FilesObj := .asList []
deriving DecidableEq, Repr

/-- Percent-encoding: UTF-8 bytes of a character (RFC 3629 encoding of the
code point). -/
def utf8Bytes (c : Char) : List Nat :=
  let n := c.toNat
  if n < 0x80 then [n]
  else if n < 0x800 then [0xC0 + n / 0x40, 0x80 + n % 0x40]
  else if n < 0x10000 then [0xE0 + n / 0x1000, 0x80 + (n / 0x40) % 0x40, 0x80 + n % 0x40]
  else [0xF0 + n / 0x40000, 0x80 + (n / 0x1000) % 0x40, 0x80 + (n / 0x40) % 0x40, 0x80 + n % 0x40]

/-- Uppercase hexadecimal digit for a value below 16. -/
def hexDigit (n : Nat) : Char :=
  if n < 10 then Char.ofNat (48 + n) else Char.ofNat (55 + n)

/-- A percent-escaped byte, `%XX`. -/
def pctByte (b : Nat) : String := "%" ++ String.mk [hexDigit (b / 16), hexDigit (b % 16)]

/-- Characters `urllib.parse.quote` leaves unescaped with its default
`safe="/"`: unreserved characters plus the slash. -/
def quoteSafe (c : Char) : Bool :=
  c.isAlphanum || c == '_' || c == '.' || c == '-' || c == '~' || c == '/'

/-- `urllib.parse.quote(name)` with the default safe set. -/
def urlQuote (s : String) : String :=
  String.join (s.toList.map (fun c =>
    if quoteSafe c then String.mk [c] else String.join ((utf8Bytes c).map pctByte)))

/-- `build_file_url(details, name)` (lines 464-470): requires truthy
`server` and `dir` values, strips leading slashes from the name and
percent-encodes it. -/
def build_file_url (details : Details) (name : String) : Option String :=
  match details.server, details.dir with
  | some server, some dir =>
      if server = "" || dir = "" then none
      else some ("https://" ++ server ++ dir ++ "/" ++ urlQuote (lstripSlash name))
  | _, _ => none

/-- Truncation toward zero of a rational, as Python `int(float)` does. -/
def ratTrunc (q : ℚ) : Int := if q < 0 then -⌊-q⌋ else ⌊q⌋

/-- Python `f"{x:.1f}"` on a nonnegative value, modelled with exact rational
rounding to one decimal, ties to even. (CPython formats the binary double,
which can differ from exact decimal rounding in ties; no claim depends on
this formatting.) -/
def fmtOneDecimal (q : ℚ) : String :=
  let t : ℚ := q * 10
  let fl : Int := ⌊t⌋
  let frac : ℚ := t - fl
  let r : Int :=
    if frac > 1/2 then fl + 1
    else if frac < 1/2 then fl
    else if fl % 2 = 0 then fl else fl + 1
  toString (r / 10) ++ "." ++ toString (r % 10)

/-- The unit-scaling loop of `human_size` (lines 570-578): return at the
first unit where the scaled size drops below 1024, or at the last unit. -/
def human_size_go : List String → ℚ → Option String
  | [], _ => none
  | u :: rest, size =>
      if size < 1024 ∨ rest = [] then
        some (if u = "B" then toString (ratTrunc size) ++ " " ++ u
              else fmtOneDecimal size ++ " " ++ u)
      else human_size_go rest (size / 1024)

/-- `human_size(n)` (lines 570-578). -/
def human_size (n : Int) : String :=
  (human_size_go ["B", "KB", "MB", "GB", "TB", "PB"] (n : ℚ)).getD ""

/-- The derived per-selection file info (`build_file_info`, lines 509-536):
resolved download and page locators, parsed size, chosen digests and the
torrent flag (`name.lower().endswith(".torrent")`). -/
structure FileInfo where
  name : String
  size : Option Int
  size_h : String
  md5 : Option String
  sha1 : Option String
  format : Option String
  mtime : Option String
  crc32 : Option String
  url : String
  page_url : String
  is_torrent : Bool
  download_dir : String
  preferred_hash : String
deriving DecidableEq, Repr

/-- `build_file_info(details, f, hash_type, human, download_dir)`
(lines 509-536). `size` is parsed with `int(...)` guarded by a
`try`/`except` that maps failures to `None`; `size_h` falls back to the raw
size string; `page_url` is built only for a truthy identifier. -/
def build_file_info (details : Details) (f : FileRec) (hash_type : String)
    (human : Bool) (download_dir : String) : FileInfo :=
  let name := f.nameD
  let size_i : Option Int :=
    match f.size with
    | none => none
    | some s => if s = "" then none else pyParseInt s
  let identifier := _first details.identifierMeta
  { name := name
  , size := size_i
  , size_h :=
      match human, size_i with
      | true, some n => human_size n
      | _, _ => match f.size with | some s => s | none => "-"
  , md5 := f.md5
  , sha1 := f.sha1
  , format := f.format
  , mtime := f.mtime
  , crc32 := f.crc32
  , url := (build_file_url details name).getD ""
  , page_url :=
      match identifier with
      | some i => if i = "" then "" else "https://archive.org/details/" ++ i
      | none => ""
  , is_torrent := strEnds (strLower name) ".torrent"
  , download_dir := download_dir
  , preferred_hash := hash_type }

/-! ## File-list filtering and pagination (the ItemFiles loop) -/

/-- The three file filters applied in order before paging
(lines 1090-1109): the `--ext` suffix filter, the `--file-contains`
substring filter, and the runtime `files_filter` substring filter. An empty
string is falsy in Python, so it disables the corresponding filter. -/
def applyFileFilters (ext fileContains filesFilter : Option String)
    (fs : List FileRec) : List FileRec :=
  let l1 :=
    match ext with
    | some e =>
        if e = "" then fs
        else fs.filter (fun f => strEnds (strLower f.nameD) ("." ++ lstripDot (strLower e)))
    | none => fs
  let l2 :=
    match fileContains with
    | some s => if s = "" then l1
        else l1.filter (fun f => strIn (strLower s) (strLower f.nameD))
    | none => l1
  match filesFilter with
  | some s => if s = "" then l2
      else l2.filter (fun f => strIn (strLower s) (strLower f.nameD))
  | none => l2

/-- `page_size = max(1, args.rows)` (line 1117). -/
def pageSizeOf (rows : Int) : Nat := (max 1 rows).toNat

/-- `total_pages = max(1, (len(files_list) + page_size - 1) // page_size)`
(line 1118). -/
def totalPagesOf (len pageSize : Nat) : Nat := max 1 ((len + pageSize - 1) / pageSize)

/-- `if files_page > total_pages: files_page = total_pages`
(lines 1119-1120). -/
def clampPage (filesPage totalPages : Nat) : Nat :=
  if filesPage > totalPages then totalPages else filesPage

/-- The computed file-list page window. -/
structure FilesPage where
  pageSize : Nat
  totalPages : Nat
  page : Nat
  start : Nat
  slice : List FileRec
deriving DecidableEq, Repr

/-- The per-iteration pagination computation of the ItemFiles loop
(lines 1114-1123): page size from `args.rows`, total pages with a minimum
of 1, downward clamp of the current page, and the displayed slice
`files_list[start : start + page_size]`. -/
def filesPaginate (rows : Int) (files_page : Nat) (files_list : List FileRec) : FilesPage :=
  let page_size := pageSizeOf rows
  let total_pages := totalPagesOf files_list.length page_size
  let fp := clampPage files_page total_pages
  let start := (fp - 1) * page_size
  { pageSize := page_size
  , totalPages := total_pages
  , page := fp
  , start := start
  , slice := (files_list.drop start).take page_size }

/-- An external capability invoked by the `c`/`o` branches of the ItemFiles
loop (clipboard copy or browser open of the item page locator). -/
inductive ExtCall where
  | copyUrl (u : String)
  | openUrl (u : String)
deriving DecidableEq, Repr

/-- Result of one ItemFiles-prompt interaction (lines 1141-1208): quit the
whole session (`q`), go back to Results (`b`), continue the loop with
possibly updated filter/page state (recording printed error lines and any
external capability call), or select a file from the current page slice. -/
inductive FOut where
  | quitAll
  | backToResults
  | loop (files_filter : Option String) (files_page : Nat)
         (msgs : List String) (ext : Option ExtCall)
  | selected (i : Nat)
deriving DecidableEq, Repr

/-- One ItemFiles-prompt step (lines 1141-1208). `raw0` is the prompt input
(stripped as in `raw = (raw or "").strip()`), `aux` a possible secondary
filter-text prompt. Branches, in source order: `q` quits; `/` sets the
runtime filter and resets the file page; `r` clears both; `b` returns to
Results; `c`/`o` act on the item page locator; `n`/`p` move the page with
clamping; an input containing a comma or dash is rejected; then the numeric
selection is parsed and range-checked against the current page slice. -/
def filesPromptStep (details : Details) (raw0 aux : String)
    (files_filter : Option String) (files_page total_pages : Nat)
    (sliceLen : Nat) : FOut :=
  let raw := pyStrip raw0
  if strLower raw = "q" then .quitAll
  else if strStarts raw "/" then
    let term := if raw.length > 1 then strDrop raw 1 else pyStrip aux
    .loop (if term = "" then none else some term) 1 [] none
  else if strLower raw = "r" then .loop none 1 [] none
  else if strLower raw = "b" then .backToResults
  else if strLower raw = "c" then
    let page_url :=
      match _first details.identifierMeta with
      | some i => if i = "" then "" else "https://archive.org/details/" ++ i
      | none => ""
    if page_url = "" then .loop files_filter files_page ["No page URL available."] none
    else .loop files_filter files_page [] (some (.copyUrl page_url))
  else if strLower raw = "o" then
    let page_url :=
      match _first details.identifierMeta with
      | some i => if i = "" then "" else "https://archive.org/details/" ++ i
      | none => ""
    if page_url = "" then .loop files_filter files_page ["No page URL available."] none
    else .loop files_filter files_page [] (some (.openUrl page_url))
  else if strLower raw = "n" then
    .loop files_filter (min total_pages (files_page + 1)) [] none
  else if strLower raw = "p" then
    .loop files_filter (max 1 (files_page - 1)) [] none
  else if raw.toList.contains ',' || raw.toList.contains '-' then
    .loop files_filter files_page ["Please select a single index only."] none
  else
    match pyParseInt raw with
    | none => .loop files_filter files_page ["Invalid selection."] none
    | some k =>
      if 1 ≤ k ∧ k ≤ (sliceLen : Int) then .selected (k - 1).toNat
      else .loop files_filter files_page ["Selection out of range."] none

/-! ## Numeric selection in Results: the details fetch (lines 1069-1077) -/

/-- Outcome of selecting a result item: either the ItemFiles loop is entered
with the fetched details, or the session ends with a process exit code. -/
inductive SelectOut where
  | enterFiles (d : Details)
  | sessionEnd (code : Int) (msgs : List String)
deriving DecidableEq, Repr

/-- The numeric-selection branch of the Results loop (lines 1069-1077):
`fetch_item_details` is called for the chosen identifier; on failure the
error is printed, the table is printed, and `main` returns 2 — the session
terminates. On success the ItemFiles loop is entered. `fetchD` maps an
identifier to the fetched details or the raised error. -/
def resultsSelectStep (chosen : Item) (fetchD : String → Except String Details) : SelectOut :=
  match fetchD chosen.identifier with
  | .error e => .sessionEnd 2 ["Details fetch failed: " ++ e]
  | .ok d => .enterFiles d

/-! ## The download action (lines 1273-1359)

The `d` action of the file-action menu: ensure the download directory
exists, run `aria2c` as a child process when available and not disabled,
otherwise fall back to the in-process PySmartDL fetch. The source runs the
child with a plain blocking `subprocess.call(cmd)` and waits for the
fallback with `while not obj.isFinished(): time.sleep(0.2)`; the helper
`read_key_nonblocking` (lines 142-156) is never invoked anywhere in `main`,
so no keystroke is read, no termination signal is ever sent to a child, and
every branch ends with `continue`, returning to the file-list loop. -/

/-- The environment of one download attempt: the keystrokes sitting in the
terminal input buffer while the download runs, the result of
`os.makedirs`, the `--no-aria2` flag, the resolved aria2 path
(`args.aria2_path or shutil.which("aria2c")`, so an empty string behaves
like absence), the child exit status, and the PySmartDL availability and
outcome flags (`isSuccessful()`, `get_errors()` non-empty). -/
structure DlEnv where
  pendingKeys : List Char := []
  mkdirError : Option String := none
  no_aria2 : Bool := false
  aria2_path : Option String := none
  aria2ExitCode : Int := 0
  pySmartDLOk : Bool := true
  sdlIsSuccessful : Bool := true
  sdlHasErrors : Bool := false
deriving DecidableEq, Repr

/-- Observable result of the download action: the lines printed, the aria2
command line if the child ran, the URL handed to PySmartDL if the fallback
fetch ran, whether a termination signal was sent to a child, how many
pending keystrokes were read during the download, and whether control
returns to the file-list loop. -/
structure DlResult where
  msgs : List String
  aria2Cmd : Option (List String)
  smartdlUrl : Option String
  sentTermSignal : Bool
  keysRead : Nat
  backToFileList : Bool
deriving DecidableEq, Repr

/-- The PySmartDL fallback tail of the download action (lines 1337-1359):
a failed import prints an error and continues; otherwise the URL — whatever
it is, with no torrent check — is handed to `SmartDL(url, dest=...)`, the
loop sleeps until `isFinished()`, and the outcome message is chosen from
`isSuccessful()` / `get_errors()`. No keystroke is read and no signal is
sent; the branch ends with `continue`. -/
def fallbackRun (finfo : FileInfo) (env : DlEnv) (preMsgs : List String) : DlResult :=
  if ¬ env.pySmartDLOk then
    { msgs := preMsgs ++ ["PySmartDL not installed; please install or use aria2."]
    , aria2Cmd := none, smartdlUrl := none
    , sentTermSignal := false, keysRead := 0, backToFileList := true }
  else
    { msgs := preMsgs ++ ["Downloading: " ++ finfo.url] ++
        (if env.sdlIsSuccessful then ["Download finished."]
         else if env.sdlHasErrors then ["Failed"] else [])
    , aria2Cmd := none, smartdlUrl := some finfo.url
    , sentTermSignal := false, keysRead := 0, backToFileList := true }

/-- The `d` action (lines 1273-1359). Branch order follows the source: a
missing URL aborts; a failed `os.makedirs` aborts; with aria2 enabled and a
truthy path, the command line of lines 1304-1318 is built and the child is
run with a blocking `subprocess.call` — exit status 0 prints
`Download finished.`, any other status prints the exit code, and either way
the branch continues back to the file list; otherwise the PySmartDL
fallback of `fallbackRun` is taken, preceded by the fallback notice from
line 1296-1301 or 1330-1336. -/
def downloadAction (finfo : FileInfo) (env : DlEnv) (max_connections : Int)
    (verbose : Bool) (download_dir : String) : DlResult :=
  if finfo.url = "" then
    { msgs := ["Could not build file URL."]
    , aria2Cmd := none, smartdlUrl := none
    , sentTermSignal := false, keysRead := 0, backToFileList := true }
  else
    match env.mkdirError with
    | some e =>
        { msgs := ["Could not create download dir \x27" ++ download_dir ++ "\x27: " ++ e]
        , aria2Cmd := none, smartdlUrl := none
        , sentTermSignal := false, keysRead := 0, backToFileList := true }
    | none =>
      let fallbackNotice := "aria2 not found or disabled. Using PySmartDL fallback."
      if ¬ env.no_aria2 then
        match env.aria2_path with
        | some path =>
          if path = "" then fallbackRun finfo env [fallbackNotice]
          else
            let baseCmd := [path, "--continue=true",
              "--max-connection-per-server=" ++ toString max_connections,
              "--split=" ++ toString max_connections,
              "--dir=" ++ download_dir]
            let cmd := (if ¬ verbose then baseCmd ++ ["--console-log-level=error"]
                        else baseCmd) ++ [finfo.url]
            let ret := env.aria2ExitCode
            { msgs := ["Found aria2"] ++
                (if verbose then ["Running aria2c: " ++ String.intercalate " " cmd] else []) ++
                [if ret = 0 then "Download finished."
                 else "aria2 exited with code " ++ toString ret]
            , aria2Cmd := some cmd, smartdlUrl := none
            , sentTermSignal := false, keysRead := 0, backToFileList := true }
        | none => fallbackRun finfo env [fallbackNotice]
      else fallbackRun finfo env [fallbackNotice]

/-! ## The hash-lookup action (lines 1248-1272) -/

/-- Python `a | b` on two `str` operands: the `str` type defines no
`__or__`, so the operation raises `TypeError`. -/
def pyStrOr (_a _b : String) : Except String String :=
  .error "TypeError: unsupported operand type(s) for |: \x27str\x27 and \x27str\x27"

/-- `hasattr(Color, "BOLD")`: the `Color` class (lines 44-52) defines a
`BOLD` attribute, so this is true. -/
def colorHasBold : Bool := true

/-- Outcome of the `h` action: an uncaught exception propagating out of the
branch (there is no enclosing `try` in `main`), the no-SHA1 notice printed
followed by a return to the file list, or a lookup dispatched to the
secondary service with the digest. -/
inductive HashOut where
  | raised (err : String)
  | printedNoSha1 (msgs : List String)
  | lookedUp (digest : String)
deriving DecidableEq, Repr

/-- The `h` action (lines 1248-1272). `finfo.get("sha1")` is falsy when the
digest is absent or empty; in that case the code builds the warning via
`color("No SHA1 available for this file.", Color.YELLOW | Color.BOLD if
hasattr(Color, "BOLD") else Color.YELLOW)` — the conditional expression
picks the `Color.YELLOW | Color.BOLD` operand, whose evaluation on two
strings raises `TypeError` before anything is printed. With a truthy digest
the secondary lookup is invoked. -/
def hashAction (finfo : FileInfo) : HashOut :=
  let sha1 := finfo.sha1
  if sha1.getD "" = "" then
    if colorHasBold then
      match pyStrOr Color.YELLOW Color.BOLD with
      | .error e => .raised e
      | .ok code => .printedNoSha1 [colorWrap "No SHA1 available for this file." code]
    else .printedNoSha1 [colorWrap "No SHA1 available for this file." Color.YELLOW]
  else .lookedUp (sha1.getD "")

/-! ## Concrete fixtures for witnesses and counterexamples -/

def demoItem : Item :=
  { identifier := "ubuntu-22.04", downloads := some 1200, title := some "Ubuntu 22.04 ISO" }

def demoItem2 : Item :=
  { identifier := "debian-12", downloads := some 800, title := some "Debian 12" }

def demoDetails : Details :=
  { server := some "ia800000.us.archive.org"
  , dir := some "/0/items/demo"
  , identifierMeta := some (.strv "demo")
  , files := .asList [] }

def plainRec : FileRec :=
  { name := some "disk.iso", size := some "1048576", sha1 := some "0a1b2c" }

def torrentRec : FileRec :=
  { name := some "disk.iso.torrent", size := some "4096" }

def noShaRec : FileRec := { name := some "readme.txt" }

def plainInfo : FileInfo := build_file_info demoDetails plainRec "sha1" true "./downloads"

def torrentInfo : FileInfo := build_file_info demoDetails torrentRec "sha1" true "./downloads"

def noShaInfo : FileInfo := build_file_info demoDetails noShaRec "sha1" true "./downloads"

def rstate1 : RState :=
  { page := 1, payloadItems := [demoItem, demoItem2], items := [demoItem, demoItem2] }

def rstate3 : RState := { page := 3, payloadItems := [demoItem], items := [demoItem] }

def fetchFail : Nat → Except String (List Item) := fun _ => .error "boom"

def fetchSwap : Nat → Except String (List Item) := fun _ => .ok [demoItem2]

def aria2Env : DlEnv := { aria2_path := some "/usr/bin/aria2c" }

def aria2EnvCancelKey : DlEnv := { aria2_path := some "/usr/bin/aria2c", pendingKeys := ['c'] }

def aria2EnvExit3 : DlEnv := { aria2_path := some "/usr/bin/aria2c", aria2ExitCode := 3 }

def fbEnv : DlEnv := { no_aria2 := true }

def fbEnvCancelKey : DlEnv := { no_aria2 := true, pendingKeys := ['c'] }

def fiveRecs : List FileRec :=
  [ { name := some "a.iso" }, { name := some "b.iso" }, { name := some "c.iso" }
  , { name := some "d.iso" }, { name := some "e.iso" } ]

def manyRecs : List FileRec := List.replicate 25 {}

/-! ## C1: item-detail fetch failure from a Results selection -/

/-- C1 (counterexample): with a failing item-detail fetch for the selected
result, the session does not remain in the Results state — the step reports
the error and terminates the session with exit code 2. -/
theorem detailsFetchFailure_cex :
    resultsSelectStep demoItem (fun _ => Except.error "connection reset") =
      SelectOut.sessionEnd 2 ["Details fetch failed: connection reset"] := by
  decide

/-- C1 (amended): for every failure of the item-detail fetch triggered by a
numeric selection in the Results state, the error is reported and the
session terminates — `main` prints the error and the table and returns exit
code 2 instead of continuing the Results loop. -/
theorem detailsFetchFailure_reports_and_exits
    (chosen : Item) (fetchD : String → Except String Details) (e : String)
    (h : fetchD chosen.identifier = Except.error e) :
    resultsSelectStep chosen fetchD =
      SelectOut.sessionEnd 2 ["Details fetch failed: " ++ e] := by
  unfold resultsSelectStep
  rw [h]

/-- C1 (witness): the amended theorem at a concrete failing fetch. -/
theorem detailsFetchFailure_reports_and_exits_w :
    resultsSelectStep demoItem (fun _ => Except.error "timeout") =
      SelectOut.sessionEnd 2 ["Details fetch failed: " ++ "timeout"] :=
  detailsFetchFailure_reports_and_exits demoItem (fun _ => Except.error "timeout") "timeout" rfl

/-! ## C3: paging fetch failure in Results -/

/-- C3 (counterexample): a failing `next` fetch from Results page 1 keeps
the item data and surfaces the error, but the current page position has
already moved to 2 — the paging step is not atomic on error. -/
theorem pagingFailureMovesPage_cex :
    (resultsNextStep rstate1 fetchFail).st.page = 2
    ∧ rstate1.page = 1
    ∧ (resultsNextStep rstate1 fetchFail).st.items = rstate1.items
    ∧ (resultsNextStep rstate1 fetchFail).msgs = ["Failed to load next page: boom"] := by
  decide

/-- C3 (amended): on a `next`/`prev` catalog fetch failure in the Results
state, the prior page's item data is retained and the error is surfaced,
but the page position is not restored: `next` has already incremented it
and `prev` (when the page exceeded 1) has already decremented it before the
fetch, so the step is not atomic on error. -/
theorem pagingFailure_keepsData_movesPage :
    (∀ (st : RState) (fetch : Nat → Except String (List Item)) (e : String),
        fetch (st.page + 1) = Except.error e →
        resultsNextStep st fetch =
          { st := { st with page := st.page + 1 },
            msgs := ["Failed to load next page: " ++ e], fetched := true })
    ∧ (∀ (st : RState) (fetch : Nat → Except String (List Item)) (e : String),
        1 < st.page → fetch (st.page - 1) = Except.error e →
        resultsPrevStep st fetch =
          { st := { st with page := st.page - 1 },
            msgs := ["Failed to load previous page: " ++ e], fetched := true }) := by
  constructor
  · intro st fetch e h
    simp only [resultsNextStep, h]
  · intro st fetch e hp h
    simp only [resultsPrevStep, gt_iff_lt, if_pos hp, h]

/-- C3 (witness): the amended theorem at concrete failing fetches. -/
theorem pagingFailure_keepsData_movesPage_w :
    resultsNextStep rstate1 fetchFail =
      { st := { rstate1 with page := rstate1.page + 1 },
        msgs := ["Failed to load next page: " ++ "boom"], fetched := true }
    ∧ resultsPrevStep rstate3 fetchFail =
      { st := { rstate3 with page := rstate3.page - 1 },
        msgs := ["Failed to load previous page: " ++ "boom"], fetched := true } :=
  ⟨pagingFailure_keepsData_movesPage.1 rstate1 fetchFail "boom" rfl,
   pagingFailure_keepsData_movesPage.2 rstate3 fetchFail "boom" (by decide) rfl⟩

/-! ## C4: user input errors at the interactive prompts -/

/-- C4 (counterexample): in the Results state a malformed command does
print an error, but the session then ends (the loop prints the table and
breaks, after which `main` returns) instead of reprompting. -/
theorem resultsInputError_endsSession_cex :
    resultsPromptStep rstate1 "hello" "" = ROut.ended 0 ["Invalid input."] := by
  decide

/-- C4 (amended): in the ItemFiles state a malformed command or an
out-of-range numeric selection is reported and the loop reprompts with the
filter and page state unchanged; in the Results state, however, a malformed
command prints `Invalid input.` and an out-of-range numeric selection
prints nothing, and in both cases the loop prints the table and breaks,
terminating the session, instead of reprompting; moreover an uppercase
command letter (`Q`, `N`, `P`, `R`, `S`) at the Results prompt is kept as
`sel = raw` in its original case, matches no lowercase dispatch branch,
and crashes the session with an uncaught `TypeError` at `items[sel]`. -/
theorem inputError_behaviour :
    (∀ (st : RState) (aux raw : String),
        pyStrip raw = raw → raw ≠ "" →
        strLower raw ≠ "q" → strLower raw ≠ "n" → strLower raw ≠ "p" →
        strLower raw ≠ "r" → strLower raw ≠ "s" →
        strStarts raw "/" = false → pyParseInt raw = none →
        resultsPromptStep st raw aux = ROut.ended 0 ["Invalid input."])
    ∧ (∀ (st : RState) (aux raw : String) (k : Int),
        pyStrip raw = raw → raw ≠ "" →
        strLower raw ≠ "q" → strLower raw ≠ "n" → strLower raw ≠ "p" →
        strLower raw ≠ "r" → strLower raw ≠ "s" →
        strStarts raw "/" = false → pyParseInt raw = some k →
        ¬ (1 ≤ k ∧ k ≤ (st.items.length : Int)) →
        resultsPromptStep st raw aux = ROut.ended 0 [])
    ∧ (∀ (d : Details) (aux raw : String) (ff : Option String) (fp tp sl : Nat),
        pyStrip raw = raw →
        strLower raw ≠ "q" → strStarts raw "/" = false →
        strLower raw ≠ "r" → strLower raw ≠ "b" → strLower raw ≠ "c" →
        strLower raw ≠ "o" → strLower raw ≠ "n" → strLower raw ≠ "p" →
        raw.toList.contains ',' = false → raw.toList.contains '-' = false →
        pyParseInt raw = none →
        filesPromptStep d raw aux ff fp tp sl = FOut.loop ff fp ["Invalid selection."] none)
    ∧ (∀ (d : Details) (aux raw : String) (ff : Option String) (fp tp sl : Nat) (k : Int),
        pyStrip raw = raw →
        strLower raw ≠ "q" → strStarts raw "/" = false →
        strLower raw ≠ "r" → strLower raw ≠ "b" → strLower raw ≠ "c" →
        strLower raw ≠ "o" → strLower raw ≠ "n" → strLower raw ≠ "p" →
        raw.toList.contains ',' = false → raw.toList.contains '-' = false →
        pyParseInt raw = some k → ¬ (1 ≤ k ∧ k ≤ (sl : Int)) →
        filesPromptStep d raw aux ff fp tp sl = FOut.loop ff fp ["Selection out of range."] none)
    ∧ (∀ (st : RState) (aux raw : String),
        pyStrip raw = raw → raw ≠ "" →
        (strLower raw = "q" ∨ strLower raw = "n" ∨ strLower raw = "p"
          ∨ strLower raw = "r" ∨ strLower raw = "s") →
        raw ≠ "/" → raw ≠ "s" → raw ≠ "r" → raw ≠ "q" → raw ≠ "n" → raw ≠ "p" →
        resultsPromptStep st raw aux
          = ROut.raised "TypeError: list indices must be integers or slices, not str") := by
  refine ⟨?_, ?_, ?_, ?_, ?_⟩
  · intro st aux raw hs h0 hq hn hp hr hsr hsl hparse
    simp [resultsPromptStep, hs, h0, hq, hn, hp, hr, hsr, hsl, hparse]
  · intro st aux raw k hs h0 hq hn hp hr hsr hsl hparse hrange
    simp [resultsPromptStep, hs, h0, hq, hn, hp, hr, hsr, hsl, hparse, hrange]
  · intro d aux raw ff fp tp sl hs hq hsl hr hb hc ho hn hp hcm hdash hparse
    simp [filesPromptStep, hs, hq, hsl, hr, hb, hc, ho, hn, hp, hcm, hdash, hparse]
    exact ⟨by simpa using hcm, by simpa using hdash⟩
  · intro d aux raw ff fp tp sl k hs hq hsl hr hb hc ho hn hp hcm hdash hparse hrange
    simp [filesPromptStep, hs, hq, hsl, hr, hb, hc, ho, hn, hp, hcm, hdash, hparse, hrange]
    exact ⟨by simpa using hcm, by simpa using hdash⟩
  · intro st aux raw hs h0 hcmd hslash hsv hrv hqv hnv hpv
    simp only [resultsPromptStep, hs]
    rw [if_neg h0, if_pos hcmd]
    simp [hslash, hsv, hrv, hqv, hnv, hpv]

/-- C4 (witness): the amended theorem at concrete malformed, out-of-range,
and uppercase-command inputs. -/
theorem inputError_behaviour_w :
    resultsPromptStep rstate1 "abc" "" = ROut.ended 0 ["Invalid input."]
    ∧ resultsPromptStep rstate1 "99" "" = ROut.ended 0 []
    ∧ filesPromptStep demoDetails "xyz" "" none 1 1 3 = FOut.loop none 1 ["Invalid selection."] none
    ∧ filesPromptStep demoDetails "7" "" none 1 1 3 = FOut.loop none 1 ["Selection out of range."] none
    ∧ resultsPromptStep rstate1 "Q" ""
        = ROut.raised "TypeError: list indices must be integers or slices, not str" :=
  ⟨inputError_behaviour.1 rstate1 "" "abc" (by decide) (by decide) (by decide) (by decide)
      (by decide) (by decide) (by decide) (by decide) (by decide),
   inputError_behaviour.2.1 rstate1 "" "99" 99 (by decide) (by decide) (by decide) (by decide)
      (by decide) (by decide) (by decide) (by decide) (by decide) (by decide),
   inputError_behaviour.2.2.1 demoDetails "" "xyz" none 1 1 3 (by decide) (by decide)
      (by decide) (by decide) (by decide) (by decide) (by decide) (by decide) (by decide)
      (by decide) (by decide) (by decide),
   inputError_behaviour.2.2.2.1 demoDetails "" "7" none 1 1 3 7 (by decide) (by decide)
      (by decide) (by decide) (by decide) (by decide) (by decide) (by decide) (by decide)
      (by decide) (by decide) (by decide) (by decide),
   inputError_behaviour.2.2.2.2 rstate1 "" "Q" (by decide) (by decide) (by decide)
      (by decide) (by decide) (by decide) (by decide) (by decide) (by decide)⟩

/-! ## C6: paging at the boundaries -/

/-- C6 (counterexample): at the Results level the boundary commands are not
no-ops — `prev` at page 1 performs a catalog fetch whose result replaces
the displayed data, and `next` (here from page 3, the last page of the
specification scenario) advances the page unconditionally. -/
theorem boundaryPaging_cex :
    (resultsPrevStep rstate1 fetchSwap).fetched = true
    ∧ (resultsPrevStep rstate1 fetchSwap).st.items ≠ rstate1.items
    ∧ (resultsNextStep rstate3 fetchSwap).st.page = 4 := by
  decide

/-- C6 (amended): at the ItemFiles level, `next` at the last page and
`prev` at page 1 are no-ops. At the Results level, `next` always
increments the page and performs a catalog fetch (there is no last-page
bound), and `prev` at page 1 keeps the page number at 1 but still performs
a catalog fetch whose result replaces the displayed data. -/
theorem boundaryPaging_behaviour :
    (∀ (d : Details) (aux : String) (ff : Option String) (tp sl : Nat),
        filesPromptStep d "n" aux ff tp tp sl = FOut.loop ff tp [] none)
    ∧ (∀ (d : Details) (aux : String) (ff : Option String) (tp sl : Nat),
        filesPromptStep d "p" aux ff 1 tp sl = FOut.loop ff 1 [] none)
    ∧ (∀ (st : RState) (fetch : Nat → Except String (List Item)),
        (resultsNextStep st fetch).st.page = st.page + 1
        ∧ (resultsNextStep st fetch).fetched = true)
    ∧ (∀ (st : RState) (fetch : Nat → Except String (List Item)),
        st.page = 1 →
        (resultsPrevStep st fetch).st.page = 1
        ∧ (resultsPrevStep st fetch).fetched = true) := by
  refine ⟨?_, ?_, ?_, ?_⟩
  · intro d aux ff tp sl
    have h : filesPromptStep d "n" aux ff tp tp sl = FOut.loop ff (min tp (tp + 1)) [] none := rfl
    rw [h, Nat.min_eq_left (Nat.le_succ tp)]
  · intro d aux ff tp sl
    rfl
  · intro st fetch
    rcases hf : fetch (st.page + 1) with e | base <;>
      simp [resultsNextStep, hf]
  · intro st fetch h1
    rcases hf : fetch (if st.page > 1 then st.page - 1 else st.page) with e | base <;>
      simp [resultsPrevStep, h1, hf] <;> simp [h1] at hf <;> simp [hf]

/-- C6 (witness): the amended theorem at concrete boundary states. -/
theorem boundaryPaging_behaviour_w :
    filesPromptStep demoDetails "n" "" none 5 5 3 = FOut.loop none 5 [] none
    ∧ filesPromptStep demoDetails "p" "" none 1 5 3 = FOut.loop none 1 [] none
    ∧ (resultsNextStep rstate1 fetchSwap).st.page = rstate1.page + 1
    ∧ (resultsPrevStep rstate1 fetchSwap).st.page = 1 :=
  ⟨boundaryPaging_behaviour.1 demoDetails "" none 5 3,
   boundaryPaging_behaviour.2.1 demoDetails "" none 5 3,
   (boundaryPaging_behaviour.2.2.1 rstate1 fetchSwap).1,
   (boundaryPaging_behaviour.2.2.2 rstate1 fetchSwap rfl).1⟩

/-! ## C7: the file-list pagination invariant -/

/-- Auxiliary bounds: for positive `b`, the product `(a + b - 1) / b * b`
lies in the interval from `a` (inclusive) to `a + b` (exclusive). -/
theorem ceil_div_bounds (a b : ℕ) (hb : 0 < b) :
    a ≤ (a + b - 1) / b * b ∧ (a + b - 1) / b * b < a + b := by
  have hd := Nat.div_add_mod (a + b - 1) b
  have hm : (a + b - 1) % b < b := Nat.mod_lt _ hb
  have hcomm : (a + b - 1) / b * b = b * ((a + b - 1) / b) := Nat.mul_comm _ _
  rw [hcomm]
  set X := b * ((a + b - 1) / b) with hX
  set r := (a + b - 1) % b with hr
  omega

/-- For positive `b`, the rounded-up natural division `(a + b - 1) / b`
equals the rational ceiling of `a / b`. -/
theorem ceil_div_eq_rat_ceil (a b : ℕ) (hb : 0 < b) :
    (((a + b - 1) / b : ℕ) : ℤ) = ⌈(a : ℚ) / (b : ℚ)⌉ := by
  obtain ⟨h1, h2⟩ := ceil_div_bounds a b hb
  set t := (a + b - 1) / b with ht
  have hbq : (0 : ℚ) < (b : ℚ) := by exact_mod_cast hb
  symm
  rw [Int.ceil_eq_iff]
  constructor
  · rw [lt_div_iff₀ hbq]
    have h2q : (t : ℚ) * (b : ℚ) < (a : ℚ) + (b : ℚ) := by exact_mod_cast h2
    push_cast
    rw [sub_mul, one_mul]
    linarith
  · rw [div_le_iff₀ hbq]
    have h1q : (a : ℚ) ≤ (t : ℚ) * (b : ℚ) := by exact_mod_cast h1
    push_cast
    linarith

/-- C7: for every backing file sequence, active filters, page size at
least 1 and incoming page position at least 1, the file-list pagination
recomputed by the ItemFiles loop satisfies
`totalPages = ceil(filteredLength / pageSize)` with a minimum of 1, and the
current page is clamped into the range from 1 to `totalPages`. -/
theorem files_pagination_invariant (fs : List FileRec)
    (ext fc ffl : Option String) (rows : Int) (fp : Nat)
    (hr : 1 ≤ rows) (hfp : 1 ≤ fp) :
    (((filesPaginate rows fp (applyFileFilters ext fc ffl fs)).totalPages : ℤ)
        = max 1 ⌈((applyFileFilters ext fc ffl fs).length : ℚ) / (rows : ℚ)⌉)
    ∧ 1 ≤ (filesPaginate rows fp (applyFileFilters ext fc ffl fs)).page
    ∧ (filesPaginate rows fp (applyFileFilters ext fc ffl fs)).page
        ≤ (filesPaginate rows fp (applyFileFilters ext fc ffl fs)).totalPages := by
  set l := applyFileFilters ext fc ffl fs with hl
  have hps : pageSizeOf rows = rows.toNat := by
    unfold pageSizeOf
    rw [max_eq_right hr]
  have hpos : 0 < rows.toNat := by omega
  have hcast : ((rows.toNat : ℕ) : ℚ) = (rows : ℚ) := by
    have h := Int.toNat_of_nonneg (by omega : (0 : ℤ) ≤ rows)
    exact_mod_cast h
  refine ⟨?_, ?_, ?_⟩
  · show ((totalPagesOf l.length (pageSizeOf rows) : ℕ) : ℤ) = _
    rw [hps]
    unfold totalPagesOf
    rw [Nat.cast_max, Nat.cast_one, ceil_div_eq_rat_ceil _ _ hpos, hcast]
  · show 1 ≤ clampPage fp (totalPagesOf l.length (pageSizeOf rows))
    unfold clampPage totalPagesOf
    split <;> omega
  · show clampPage fp (totalPagesOf l.length (pageSizeOf rows))
        ≤ totalPagesOf l.length (pageSizeOf rows)
    unfold clampPage
    split <;> omega

/-- C7 (witness): the invariant at a concrete 25-element backing list, page
size 10, and an incoming page position of 5 (clamped to 3). -/
theorem files_pagination_invariant_w :
    (((filesPaginate 10 5 (applyFileFilters none none none manyRecs)).totalPages : ℤ)
        = max 1 ⌈((applyFileFilters none none none manyRecs).length : ℚ) / ((10 : Int) : ℚ)⌉)
    ∧ 1 ≤ (filesPaginate 10 5 (applyFileFilters none none none manyRecs)).page
    ∧ (filesPaginate 10 5 (applyFileFilters none none none manyRecs)).page
        ≤ (filesPaginate 10 5 (applyFileFilters none none none manyRecs)).totalPages :=
  files_pagination_invariant manyRecs none none none 10 5 (by decide) (by decide)

/-! ## C8: numeric file selection resolves to the backing index -/

/-- C8: for every in-range numeric selection `k` on a file-list page, the
selected record is the element of the backing filtered sequence at index
`(page - 1) * pageSize + k - 1`. -/
theorem file_selection_resolves_backing_index
    (rows : Int) (fp : Nat) (l : List FileRec) (k : Nat)
    (hk1 : 1 ≤ k) (hk2 : k ≤ (filesPaginate rows fp l).slice.length) :
    (filesPaginate rows fp l).slice[k - 1]?
      = l[((filesPaginate rows fp l).page - 1) * (filesPaginate rows fp l).pageSize + k - 1]? := by
  set P := filesPaginate rows fp l with hP
  have hslice : P.slice = (l.drop P.start).take P.pageSize := rfl
  have hstart : P.start = (P.page - 1) * P.pageSize := rfl
  have hlen : P.slice.length ≤ P.pageSize := by
    rw [hslice, List.length_take]
    exact min_le_left _ _
  have hk : k - 1 < P.pageSize := by omega
  rw [hslice, List.getElem?_take_of_lt hk, List.getElem?_drop, hstart]
  have hidx : (P.page - 1) * P.pageSize + (k - 1)
      = (P.page - 1) * P.pageSize + k - 1 := by
    generalize (P.page - 1) * P.pageSize = s
    omega
  rw [hidx]

/-- C8 (witness): selecting index 1 on page 2 with page size 2 of a
five-element backing list resolves to backing index 2. -/
theorem file_selection_resolves_backing_index_w :
    (filesPaginate 2 2 fiveRecs).slice[1 - 1]?
      = fiveRecs[((filesPaginate 2 2 fiveRecs).page - 1) * (filesPaginate 2 2 fiveRecs).pageSize + 1 - 1]? :=
  file_selection_resolves_backing_index 2 2 fiveRecs 1 (by decide) (by decide)

/-! ## C2: cancellation during downloads -/

/-- Field values common to every branch of `fallbackRun`: no keystroke is
read, no termination signal is sent, and control returns to the file-list
loop. -/
theorem fallbackRun_fields (finfo : FileInfo) (env : DlEnv) (pre : List String) :
    (fallbackRun finfo env pre).keysRead = 0
    ∧ (fallbackRun finfo env pre).sentTermSignal = false
    ∧ (fallbackRun finfo env pre).backToFileList = true := by
  unfold fallbackRun
  split <;> exact ⟨rfl, rfl, rfl⟩

/-- C2 (counterexample): a cancel keystroke pending in the terminal buffer
while a download runs has no effect — on the aria2 path and on the fallback
path alike, the run with the pending `c` is identical to the run without
it, no termination signal is sent, no keystroke is read, and the download
is reported finished rather than cancelled. -/
theorem downloadCancelKey_ignored_cex :
    downloadAction plainInfo aria2EnvCancelKey 16 false "./downloads"
      = downloadAction plainInfo aria2Env 16 false "./downloads"
    ∧ downloadAction plainInfo fbEnvCancelKey 16 false "./downloads"
      = downloadAction plainInfo fbEnv 16 false "./downloads"
    ∧ (downloadAction plainInfo aria2EnvCancelKey 16 false "./downloads").sentTermSignal = false
    ∧ (downloadAction plainInfo aria2EnvCancelKey 16 false "./downloads").keysRead = 0
    ∧ "Download finished." ∈ (downloadAction plainInfo aria2EnvCancelKey 16 false "./downloads").msgs := by
  decide

/-- C2 (amended): keystrokes are not polled while a download runs — the
aria2 child is run with a blocking call and the fallback waits in a
sleep-only loop, and `read_key_nonblocking` is never invoked. For every
file, environment and flags the download action reads zero pending
keystrokes, never sends a termination signal to a child, is entirely
independent of the pending-keystroke buffer, and returns control to the
file-list loop only when the download ends on its own; there is no
Cancelled outcome. -/
theorem download_ignores_keystrokes (finfo : FileInfo) (env : DlEnv)
    (mc : Int) (v : Bool) (dd : String) :
    (downloadAction finfo env mc v dd).keysRead = 0
    ∧ (downloadAction finfo env mc v dd).sentTermSignal = false
    ∧ (downloadAction finfo env mc v dd).backToFileList = true
    ∧ downloadAction finfo env mc v dd
        = downloadAction finfo { env with pendingKeys := [] } mc v dd := by
  refine ⟨?_, ?_, ?_, rfl⟩
  · unfold downloadAction
    dsimp only
    repeat' first
      | rfl
      | exact (fallbackRun_fields _ _ _).1
      | split
  · unfold downloadAction
    dsimp only
    repeat' first
      | rfl
      | exact (fallbackRun_fields _ _ _).2.1
      | split
  · unfold downloadAction
    dsimp only
    repeat' first
      | rfl
      | exact (fallbackRun_fields _ _ _).2.2
      | split

/-! ## C5: torrent-suffixed locators on the fallback path -/

/-- C5 (counterexample): a torrent-suffixed file taken on the fallback path
is not skipped — the torrent flag is set and non-empty, yet the locator is
handed to the in-process fetch library. -/
theorem torrent_not_skipped_cex :
    torrentInfo.is_torrent = true
    ∧ torrentInfo.url ≠ ""
    ∧ (downloadAction torrentInfo fbEnv 16 false "./downloads").smartdlUrl
        = some torrentInfo.url := by
  decide

/-- C5 (amended): the fallback path performs no torrent check: every
locator — torrent-suffixed ones included — is passed to the in-process
fetch library when the fallback runs; the torrent flag computed by
`build_file_info` is never consulted by the download action. -/
theorem fallback_passes_torrents (finfo : FileInfo) (env : DlEnv)
    (mc : Int) (v : Bool) (dd : String)
    (_ht : finfo.is_torrent = true) (hurl : finfo.url ≠ "")
    (hmk : env.mkdirError = none) (hna : env.no_aria2 = true)
    (hok : env.pySmartDLOk = true) :
    (downloadAction finfo env mc v dd).smartdlUrl = some finfo.url := by
  simp [downloadAction, fallbackRun, hurl, hmk, hna, hok]

/-- C5 (witness): the amended theorem at the concrete torrent file. -/
theorem fallback_passes_torrents_w :
    (downloadAction torrentInfo fbEnv 16 true "./downloads").smartdlUrl
      = some torrentInfo.url :=
  fallback_passes_torrents torrentInfo fbEnv 16 true "./downloads"
    (by decide) (by decide) rfl rfl rfl

/-! ## C9: child-process exit status reporting -/

/-- C9: with aria2 available and enabled, a child exit status of 0 is
reported as a finished download, any nonzero status is reported together
with its exit code, and in either case control returns to the file-list
loop rather than terminating the session. -/
theorem aria2_exit_reporting (finfo : FileInfo) (env : DlEnv)
    (mc : Int) (v : Bool) (dd : String) (path : String)
    (hurl : finfo.url ≠ "") (hmk : env.mkdirError = none)
    (hna : env.no_aria2 = false) (hp : env.aria2_path = some path)
    (hpne : path ≠ "") :
    ((env.aria2ExitCode = 0 →
        "Download finished." ∈ (downloadAction finfo env mc v dd).msgs)
     ∧ (env.aria2ExitCode ≠ 0 →
        ("aria2 exited with code " ++ toString env.aria2ExitCode)
          ∈ (downloadAction finfo env mc v dd).msgs)
     ∧ (downloadAction finfo env mc v dd).backToFileList = true) := by
  refine ⟨?_, ?_, ?_⟩
  · intro h0
    simp [downloadAction, hurl, hmk, hna, hp, hpne, h0]
  · intro hn0
    simp [downloadAction, hurl, hmk, hna, hp, hpne, hn0]
  · simp [downloadAction, hurl, hmk, hna, hp, hpne]

/-- C9 (witness): the reporting at concrete exit statuses 0 and 3. -/
theorem aria2_exit_reporting_w :
    "Download finished." ∈ (downloadAction plainInfo aria2Env 16 false "./downloads").msgs
    ∧ ("aria2 exited with code " ++ toString aria2EnvExit3.aria2ExitCode)
        ∈ (downloadAction plainInfo aria2EnvExit3 16 false "./downloads").msgs
    ∧ (downloadAction plainInfo aria2Env 16 false "./downloads").backToFileList = true :=
  ⟨(aria2_exit_reporting plainInfo aria2Env 16 false "./downloads" "/usr/bin/aria2c"
      (by decide) rfl rfl rfl (by decide)).1 rfl,
   (aria2_exit_reporting plainInfo aria2EnvExit3 16 false "./downloads" "/usr/bin/aria2c"
      (by decide) rfl rfl rfl (by decide)).2.1 (by decide),
   (aria2_exit_reporting plainInfo aria2Env 16 false "./downloads" "/usr/bin/aria2c"
      (by decide) rfl rfl rfl (by decide)).2.2⟩

/-! ## C10: the hash-lookup action without a SHA1 digest -/

/-- C10: for every selected file whose record has no sha1 digest, the `h`
action raises an uncaught `TypeError` while building the warning message —
the conditional expression picks the `Color.YELLOW | Color.BOLD` operand,
an unsupported operation on strings — instead of printing the no-SHA1
notice and returning to the file list. -/
theorem hash_action_raises_without_sha1 (finfo : FileInfo)
    (h : finfo.sha1 = none) :
    hashAction finfo = HashOut.raised
      "TypeError: unsupported operand type(s) for |: \x27str\x27 and \x27str\x27" := by
  simp [hashAction, h, colorHasBold, pyStrOr]

/-- C10 (witness): the theorem at the concrete digest-free file. -/
theorem hash_action_raises_without_sha1_w :
    hashAction noShaInfo = HashOut.raised
      "TypeError: unsupported operand type(s) for |: \x27str\x27 and \x27str\x27" :=
  hash_action_raises_without_sha1 noShaInfo rfl

end IASearch
